import Mathlib

/-
Shallow embedding of the databricks-claude-wrapper relay:
  src/databricks_claude/proxy.py   (credential provider, request transformer,
                                    forwarding engine, health route)
  src/databricks_coding_agent/cli.py (instance discovery: find_proxy_port)

Conventions: Python truthiness of strings is modelled explicitly (empty string
is falsy); `time.time()` instants and token expiries are modelled as integers
(the code only compares them against a 60-second margin and adds a 3600-second
default window, so any linearly ordered time domain is equivalent for the
properties below); byte chunks are lists of naturals; header maps are modelled
as structures with one field per header the code reads or writes.
-/

namespace DatabricksClaude

/-- The character list of the pattern "Bearer " used by
`request.headers.get("Authorization", "").replace("Bearer ", "")`. -/
def bearerPat : List Char := ['B', 'e', 'a', 'r', 'e', 'r', ' ']

/-- Whether `p` is an initial segment of `s` (used to locate occurrences of
the replaced pattern, as Python's `str.replace` scans left to right). -/
def startsWith : List Char → List Char → Bool
  | [], _ => true
  | _ :: _, [] => false
  | p :: ps, c :: cs => p == c && startsWith ps cs

/-- Fuel-indexed worker for `removeBearer`; fuel is always at least the length
of the list, so the fuel-exhausted branch is never taken on real inputs. -/
def removeBearerAux : Nat → List Char → List Char
  | _, [] => []
  | 0, s => s
  | n + 1, c :: cs =>
    if startsWith bearerPat (c :: cs) then removeBearerAux n (List.drop 6 cs)
    else c :: removeBearerAux n cs

/-- Python `s.replace("Bearer ", "")`: delete every non-overlapping occurrence
of "Bearer ", scanning left to right (proxy.py line 135). -/
def removeBearer (s : List Char) : List Char :=
  removeBearerAux s.length s

/-- Whether "Bearer " occurs anywhere in `s`. -/
def containsBearer : List Char → Bool
  | [] => false
  | c :: cs => startsWith bearerPat (c :: cs) || containsBearer cs

/-- String-level version of `removeBearer`. -/
def removeBearerS (s : String) : String := String.mk (removeBearer s.data)

/-- The spec's words for the api-key rewrite: "the inbound header value with
its `Bearer ` prefix removed" — strip one leading "Bearer " only.  Stated for
comparison against the source's replace-all semantics. -/
def specBearerValue (s : String) : String :=
  if startsWith bearerPat s.data then String.mk (s.data.drop 7) else s

/- ----------------------------------------------------------------------
Credential provider: `get_databricks_token` (proxy.py lines 62-110).
---------------------------------------------------------------------- -/

/-- The module cache `_token_cache = \x7b"access_token": None, "expiry": 0\x7d`.
`accessToken = none` models Python `None`; `some ""` would also be falsy. -/
structure TokenCache where
  accessToken : Option String
  expiry : Int
  deriving DecidableEq

/-- Python truthiness of `_token_cache["access_token"]` (proxy.py line 80):
`None` and the empty string are falsy. -/
def truthyOpt : Option String → Bool
  | none => false
  | some s => s != ""

/-- The `expiry` field of the broker's JSON output, as read by
`data.get("expiry", 0)` (proxy.py line 92): absent, an ISO-8601 string
(carrying the result of the `datetime.fromisoformat` parse, `none` when that
parse raises `ValueError`), or a numeric epoch value. -/
inductive ExpiryField where
  | missing
  | isoStr (parsed : Option Int)
  | num (x : Int)
  deriving DecidableEq

/-- The stdout of a zero-exit broker invocation: either `json.loads` raises
(malformed), or it yields a dict whose `access_token` / `expiry` entries are
as read by `data.get` (proxy.py lines 89-92). -/
inductive BrokerOutput where
  | malformed
  | parsed (accessToken : Option String) (expiry : ExpiryField)
  deriving DecidableEq

/-- One invocation of `subprocess.run(["databricks", "auth", "token", ...])`
(proxy.py lines 84-87): either it raises (timeout or any other exception,
caught at line 107), or it exits with a return code and some stdout. -/
inductive BrokerResult where
  | failure
  | exited (returncode : Int) (stdout : BrokerOutput)
  deriving DecidableEq

/-- Expiry computation of proxy.py lines 92-102: an ISO string is parsed
(falling back to `now + 3600` on `ValueError`); a numeric value is used
unless it is falsy (`0`, also the default for a missing field), in which
case the 1-hour default window applies. -/
def computeExpiry (now : Int) : ExpiryField → Int
  | .missing => now + 3600
  | .isoStr p => p.getD (now + 3600)
  | .num x => if x = 0 then now + 3600 else x

/-- The token/expiry pair the refresh path extracts from one broker run
(proxy.py lines 88-106): `none` when the run raised, exited non-zero,
produced unparseable stdout, or carried no truthy `access_token`. -/
def refreshResult (now : Int) : BrokerResult → Option (String × Int)
  | .failure => none
  | .exited rc out =>
    if rc = 0 then
      match out with
      | .malformed => none
      | .parsed tokOpt exp =>
        match tokOpt with
        | some tok => if tok = "" then none else some (tok, computeExpiry now exp)
        | none => none
    else none

/-- Result of one `get_databricks_token()` call: the returned token (`none`
models Python `None`), the cache state after the call, and whether the
broker subprocess was invoked during the call. -/
structure TokenResult where
  token : Option String
  cache : TokenCache
  brokerInvoked : Bool
  deriving DecidableEq

/-- The locked section of `get_databricks_token` (proxy.py lines 78-110):
serve the cached token when it is truthy and more than 60 seconds from
expiry; otherwise invoke the broker, cache and return a fresh token on
success, and return `None` (cache untouched) on any failure. -/
def getTokenLocked (cache : TokenCache) (now : Int) (b : BrokerResult) : TokenResult :=
  if truthyOpt cache.accessToken = true ∧ now < cache.expiry - 60 then
    ⟨cache.accessToken, cache, false⟩
  else
    match refreshResult now b with
    | some pr => ⟨some pr.1, ⟨some pr.1, pr.2⟩, true⟩
    | none => ⟨none, cache, true⟩

/-- `get_databricks_token()` (proxy.py lines 66-110).  `env` is
`os.environ.get("DATABRICKS_TOKEN")`; a truthy value short-circuits
(line 74-76), an empty value is falsy and falls through to the locked
cache/refresh path exactly like an unset variable. -/
def get_databricks_token (env : Option String) (cache : TokenCache) (now : Int)
    (b : BrokerResult) : TokenResult :=
  match env with
  | some t => if t = "" then getTokenLocked cache now b else ⟨some t, cache, false⟩
  | none => getTokenLocked cache now b

/- ----------------------------------------------------------------------
Request transformer: the header dict of proxy.py lines 135-144.
---------------------------------------------------------------------- -/

/-- The inbound request as the proxied route reads it: the `Authorization`
and `Anthropic-Beta` headers (absent modelled as `none`) and the body's
top-level `stream` flag (`openai_request.get("stream", False)`). -/
structure InboundRequest where
  authorization : Option String
  anthropicBeta : Option String
  stream : Bool
  deriving DecidableEq

/-- Python f-string interpolation `f"\x7bbeta_headers\x7d"` applied to a value
that may be `None`: `None` renders as the literal string "None". -/
def pyStr : Option String → String
  | none => "None"
  | some s => s

/-- The outbound header dict built by proxy.py lines 138-144, one field per
header the source sets. -/
structure OutboundHeaders where
  authorization : String
  xAnthropicApiKey : String
  anthropicBeta : String
  xDatabricksTrafficId : String
  contentType : String
  deriving DecidableEq

/-- The request transformer (spec 4.2 `build_outbound`): the header dict of
proxy.py lines 135-144, as a function of the inbound request and the
upstream Databricks token. -/
def build_outbound (inb : InboundRequest) (databricksToken : String) : OutboundHeaders :=
  { authorization := "Bearer " ++ databricksToken,
    xAnthropicApiKey := removeBearerS (inb.authorization.getD ""),
    anthropicBeta := pyStr inb.anthropicBeta,
    xDatabricksTrafficId := "testenv://liteswap/claude_max",
    contentType := "application/json" }

/- ----------------------------------------------------------------------
Forwarding engine and the proxied route `chat_completions`
(proxy.py lines 121-181), and the health route (lines 115-118).
---------------------------------------------------------------------- -/

/-- Outcome of the `http_requests.post(...)` call (proxy.py lines 146-152):
a `Timeout` exception, another `RequestException`, or an upstream response
carrying status, text body, optional Content-Type header, and the byte
chunks its `iter_content` stream yields. -/
inductive UpstreamOutcome where
  | timeout
  | transportError (msg : String)
  | response (status : Nat) (body : String) (contentType : Option String)
      (chunks : List (List Nat))
  deriving DecidableEq

/-- What the proxied route hands back to the caller: a `jsonify`-built error
envelope `\x7b"error": \x7b"message", "type", "code"?\x7d\x7d` with a status,
a full buffered response, or a chunked stream with a fixed mimetype. -/
inductive CallerResponse where
  | jsonErr (status : Nat) (errType : String) (message : String) (code : Option Nat)
  | full (status : Nat) (contentType : String) (body : String)
  | stream (contentType : String) (chunks : List (List Nat))
  deriving DecidableEq

/-- A route invocation's observable result: the caller-facing response, and
the outbound headers of the upstream request when one was dispatched
(`none` when the route returned before contacting the gateway). -/
structure RouteResult where
  response : CallerResponse
  forwarded : Option OutboundHeaders
  deriving DecidableEq

/-- The generator of proxy.py lines 163-166: relay each `iter_content` chunk,
skipping falsy (empty) chunks. -/
def relayChunks : List (List Nat) → List (List Nat)
  | [] => []
  | c :: cs => if c.isEmpty then relayChunks cs else c :: relayChunks cs

/-- The error message of the 500 config_error response (proxy.py line 131). -/
def configMsg : String :=
  "No Databricks token available. Set DATABRICKS_TOKEN or run `databricks auth login`."

/-- The upstream body of the spec's rate-limit example:
`\x7b"error":"rate limited"\x7d`. -/
def body429 : String := "\x7b\"error\":\"rate limited\"\x7d"

/-- The proxied route `chat_completions` (proxy.py lines 121-181): resolve a
token (500 config_error when unavailable), build the outbound headers, then
dispatch; a `Timeout` maps to 504, another transport exception to a 500
connection_error, an upstream status other than 200 to an error envelope
carrying the upstream body and status, and a 200 either streams the chunks
under a fixed `text/event-stream` mimetype or returns the buffered body
with the upstream's content type (defaulting to JSON). -/
def chat_completions (inb : InboundRequest) (env : Option String)
    (cache : TokenCache) (now : Int) (b : BrokerResult)
    (upstream : UpstreamOutcome) : RouteResult :=
  match (get_databricks_token env cache now b).token with
  | none => ⟨.jsonErr 500 "config_error" configMsg none, none⟩
  | some tok =>
    match upstream with
    | .timeout =>
      ⟨.jsonErr 504 "timeout_error" "Request timed out" none, some (build_outbound inb tok)⟩
    | .transportError msg =>
      ⟨.jsonErr 500 "connection_error" msg none, some (build_outbound inb tok)⟩
    | .response st body ct chunks =>
      if st = 200 then
        if inb.stream then
          ⟨.stream "text/event-stream" (relayChunks chunks), some (build_outbound inb tok)⟩
        else
          ⟨.full st (ct.getD "application/json") body, some (build_outbound inb tok)⟩
      else
        ⟨.jsonErr st "databricks_error" body (some st), some (build_outbound inb tok)⟩

/-- The health route of proxy.py lines 115-118: status code 200 and the
key/value pairs of the `jsonify(\x7b"status": "ok"\x7d)` body. -/
def health : Nat × List (String × String) := (200, [("status", "ok")])

/- ----------------------------------------------------------------------
Instance discovery: `find_proxy_port`
(src/databricks_coding_agent/cli.py lines 158-191).
---------------------------------------------------------------------- -/

/-- The well-known relay port (cli.py line 29). -/
def PROXY_PORT : Nat := 8000

/-- The parsed body of a health probe: `data.get("status")` and
`data.get("workspace")` (cli.py line 172), absent keys as `none`. -/
structure HealthData where
  status : Option String
  workspace : Option String
  deriving DecidableEq

/-- Outcome of the probe `urlopen(...); json.loads(resp.read())` of cli.py
lines 168-171: any exception (no listener, unreadable body, malformed
JSON) is caught and falls through; otherwise the parsed health data. -/
inductive ProbeOutcome where
  | failed
  | ok (data : HealthData)
  deriving DecidableEq

/-- Modelled from the spec: the health body a running coding-agent relay
reports.  `src/databricks_coding_agent/proxy.py` is not in the source tree
(only this caller is); spec section 6 gives its health response as
`\x7b"status":"ok","workspace": <identity>\x7d`. -/
def codingAgentHealthData (w : String) : HealthData := ⟨some "ok", some w⟩

/-- `find_proxy_port(workspace)` (cli.py lines 158-191), with the three
environment interactions passed as oracles: the health probe of the
well-known port, whether a test bind of that port succeeds (`bindOk`), and
the ephemeral port the OS would assign (`osPort`).  Reuse the well-known
port when the probe reports a matching healthy relay; otherwise claim it
when free; otherwise fall back to the OS-assigned port. -/
def find_proxy_port (workspace : String) (probe : ProbeOutcome)
    (bindOk : Bool) (osPort : Nat) : Nat × Bool :=
  match probe with
  | .ok d =>
    if d.status = some "ok" ∧ d.workspace = some workspace then (PROXY_PORT, true)
    else if bindOk then (PROXY_PORT, false) else (osPort, false)
  | .failed => if bindOk then (PROXY_PORT, false) else (osPort, false)

/- ----------------------------------------------------------------------
Helper lemmas.
---------------------------------------------------------------------- -/

/-- `removeBearerAux` on the empty list is the empty list, for any fuel. -/
theorem removeBearerAux_nil (n : Nat) : removeBearerAux n [] = [] := by
  cases n <;> rfl

/-- The fuel of `removeBearerAux` is irrelevant once it covers the length of
the input. -/
theorem removeBearerAux_fuel (n : Nat) : ∀ (m : Nat) (s : List Char),
    s.length ≤ n → s.length ≤ m → removeBearerAux n s = removeBearerAux m s := by
  induction n with
  | zero =>
    intro m s hn _
    have : s = [] := List.length_eq_zero.mp (Nat.le_zero.mp hn)
    subst this
    simp [removeBearerAux_nil]
  | succ n ih =>
    intro m s hn hm
    cases s with
    | nil => simp [removeBearerAux_nil]
    | cons c cs =>
      cases m with
      | zero => simp at hm
      | succ m =>
        have hn' : cs.length ≤ n := Nat.le_of_succ_le_succ hn
        have hm' : cs.length ≤ m := Nat.le_of_succ_le_succ hm
        cases h : startsWith bearerPat (c :: cs) with
        | true =>
          have hd : (List.drop 6 cs).length ≤ cs.length := by
            simp [List.length_drop]
          simp only [removeBearerAux, h, if_pos]
          exact ih m (List.drop 6 cs) (le_trans hd hn') (le_trans hd hm')
        | false =>
          simp only [removeBearerAux, h, Bool.false_eq_true, if_false]
          rw [ih m cs hn' hm']

/-- Any sufficient fuel computes `removeBearer`. -/
theorem removeBearer_eq_aux (n : Nat) (s : List Char) (h : s.length ≤ n) :
    removeBearerAux n s = removeBearer s :=
  removeBearerAux_fuel n s.length s h (Nat.le_refl _)

/-- A list with no occurrence of "Bearer " is left unchanged by the
replace-all. -/
theorem removeBearer_no_occur (s : List Char) (h : containsBearer s = false) :
    removeBearer s = s := by
  induction s with
  | nil => rfl
  | cons c cs ih =>
    have h1 : startsWith bearerPat (c :: cs) = false := by
      cases hs : startsWith bearerPat (c :: cs)
      · rfl
      · rw [containsBearer, hs] at h; simp at h
    have h2 : containsBearer cs = false := by
      rw [containsBearer, h1] at h; simpa using h
    show removeBearerAux (c :: cs).length (c :: cs) = c :: cs
    rw [List.length_cons]
    simp only [removeBearerAux, h1, Bool.false_eq_true, if_false]
    exact congrArg (c :: ·) (ih h2)

/-- A pattern is an initial segment of itself followed by anything. -/
theorem startsWith_append (p l : List Char) : startsWith p (p ++ l) = true := by
  induction p with
  | nil => rfl
  | cons a ps ih => simp [startsWith, ih]

/-- Deleting all "Bearer " occurrences from "Bearer " followed by an
occurrence-free tail yields exactly the tail. -/
theorem removeBearer_strip (t : List Char) (h : containsBearer t = false) :
    removeBearer (bearerPat ++ t) = t := by
  have hsw : startsWith bearerPat (bearerPat ++ t) = true := startsWith_append bearerPat t
  show removeBearerAux (bearerPat ++ t).length (bearerPat ++ t) = t
  have hlen : (bearerPat ++ t).length = t.length + 6 + 1 := by
    simp [bearerPat]
  rw [hlen]
  have hshape : bearerPat ++ t = 'B' :: ('e' :: 'a' :: 'r' :: 'e' :: 'r' :: ' ' :: t) := rfl
  rw [hshape] at hsw ⊢
  simp only [removeBearerAux, hsw, if_pos]
  have hdrop : List.drop 6 ('e' :: 'a' :: 'r' :: 'e' :: 'r' :: ' ' :: t) = t := rfl
  rw [hdrop]
  rw [removeBearer_eq_aux (t.length + 6) t (by omega)]
  exact removeBearer_no_occur t h

/-- String-level version of `removeBearer_strip`: on a well-formed inbound
`Authorization` value whose token is occurrence-free, the replace-all
coincides with stripping the `Bearer ` prefix. -/
theorem removeBearerS_strip (t : String) (h : containsBearer t.data = false) :
    removeBearerS ("Bearer " ++ t) = t := by
  cases t with
  | mk d =>
    show String.mk (removeBearer (bearerPat ++ d)) = String.mk d
    rw [removeBearer_strip d h]

/-- Dropping only empty chunks preserves the concatenated bytes. -/
theorem relayChunks_flatten (chunks : List (List Nat)) :
    (relayChunks chunks).flatten = chunks.flatten := by
  induction chunks with
  | nil => rfl
  | cons c cs ih =>
    cases c with
    | nil => simp [relayChunks, ih]
    | cons x xs => simp [relayChunks, ih]

/- ----------------------------------------------------------------------
Claim theorems.
---------------------------------------------------------------------- -/

/-- Claim C1, counterexample: the health route of proxy.py lines 115-118
answers 200 with body `\x7b"status": "ok"\x7d` and no "workspace" key at
all, so no workspace identity W can appear in its body. -/
theorem health_body_has_no_workspace_field :
    health.1 = 200 ∧ health.2.lookup "status" = some "ok"
  ∧ health.2.lookup "workspace" = none := by decide

/-- Claim C1, amended: a GET to the health route returns HTTP 200 with a
JSON body whose only field is "status" equal to "ok"; the bound workspace
identity is not included. -/
theorem health_returns_status_ok :
    health.1 = 200 ∧ health.2 = [("status", "ok")] := by decide

/-- Claim C3, counterexample: for the inbound `Authorization` value
"abc Bearer def", the transformer's `x-anthropic-api-key` is "abc def"
(Python `str.replace` deletes every "Bearer " occurrence), which differs
from the claim's "inbound header value with its Bearer prefix removed"
(that value has no such prefix so would stay "abc Bearer def"). -/
theorem api_key_replace_all_cex :
    (build_outbound ⟨some "abc Bearer def", none, false⟩ "T").xAnthropicApiKey = "abc def"
  ∧ specBearerValue "abc Bearer def" = "abc Bearer def"
  ∧ (build_outbound ⟨some "abc Bearer def", none, false⟩ "T").xAnthropicApiKey ≠
      specBearerValue "abc Bearer def" := by decide

/-- Claim C3, amended: for every inbound request and upstream credential,
the outbound `Authorization` is `Bearer ` followed by the upstream
credential, and the outbound `x-anthropic-api-key` is the inbound
`Authorization` value with every occurrence of the substring "Bearer "
removed; on a well-formed value `Bearer t` whose token `t` contains no
further "Bearer " occurrence this coincides with the claimed
prefix-stripped bearer value. -/
theorem build_outbound_replace_semantics (inb : InboundRequest) (tok : String) :
    (build_outbound inb tok).authorization = "Bearer " ++ tok
  ∧ (build_outbound inb tok).xAnthropicApiKey = removeBearerS (inb.authorization.getD "")
  ∧ ∀ t : String, containsBearer t.data = false → removeBearerS ("Bearer " ++ t) = t :=
  ⟨rfl, rfl, fun t h => removeBearerS_strip t h⟩

/-- Claim C3, witness for the amended theorem at a concrete input. -/
theorem build_outbound_replace_semantics_witness :
    (build_outbound ⟨some "Bearer tok123", none, false⟩ "DB").authorization = "Bearer " ++ "DB"
  ∧ (build_outbound ⟨some "Bearer tok123", none, false⟩ "DB").xAnthropicApiKey =
      removeBearerS ((some "Bearer tok123" : Option String).getD "")
  ∧ removeBearerS ("Bearer " ++ "tok123") = "tok123" := by
  obtain ⟨h1, h2, h3⟩ :=
    build_outbound_replace_semantics ⟨some "Bearer tok123", none, false⟩ "DB"
  exact ⟨h1, h2, h3 "tok123" (by decide)⟩

/-- Claim C9: when the inbound `Anthropic-Beta` header is absent, proxy.py
line 141 interpolates Python `None` into the outbound header, sending the
literal value "None" instead of omitting the header (the defect spec
section 9 records); when the header is present it is copied verbatim. -/
theorem missing_beta_header_sends_none_literal :
    (build_outbound ⟨some "Bearer k", none, false⟩ "DB").anthropicBeta = "None"
  ∧ (build_outbound ⟨some "Bearer k", some "prompt-caching-2024-07-31", false⟩
      "DB").anthropicBeta = "prompt-caching-2024-07-31" := by decide

/-- Claim C6, counterexample: with the override variable set to the empty
string, the truthiness test of proxy.py line 75 fails, so the provider
falls through to the broker path (invoking it) and does not return the
override value. -/
theorem empty_override_invokes_broker :
    (get_databricks_token (some "") ⟨none, 0⟩ 0 .failure).brokerInvoked = true
  ∧ (get_databricks_token (some "") ⟨none, 0⟩ 0 .failure).token ≠ some "" := by decide

/-- Claim C6, amended: whenever the override variable is set to a
non-empty value, the provider returns exactly that value, leaves the cache
untouched, and never invokes the broker, regardless of the cache state,
the clock, and what the broker would answer. -/
theorem nonempty_override_bypasses_broker (t : String) (cache : TokenCache)
    (now : Int) (b : BrokerResult) (ht : t ≠ "") :
    get_databricks_token (some t) cache now b = ⟨some t, cache, false⟩ := by
  show (if t = "" then getTokenLocked cache now b else ⟨some t, cache, false⟩) = _
  rw [if_neg ht]

/-- Claim C6, witness for the amended theorem at a concrete input. -/
theorem nonempty_override_bypasses_broker_witness :
    get_databricks_token (some "DBTOK") ⟨none, 0⟩ 0 .failure =
      ⟨some "DBTOK", ⟨none, 0⟩, false⟩ :=
  nonempty_override_bypasses_broker "DBTOK" ⟨none, 0⟩ 0 .failure (by decide)

/-- Claim C5: with no override set and a truthy cached token, the cached
credential is returned (broker untouched, cache unchanged) exactly when
its expiry is more than 60 seconds past `now`; at the 60-second boundary
and beyond, the broker refresh is triggered instead. -/
theorem get_databricks_token_expiry_margin (cache : TokenCache) (now : Int)
    (b : BrokerResult) (ht : truthyOpt cache.accessToken = true) :
    (now < cache.expiry - 60 →
      get_databricks_token none cache now b = ⟨cache.accessToken, cache, false⟩)
  ∧ (cache.expiry - 60 ≤ now →
      (get_databricks_token none cache now b).brokerInvoked = true) := by
  constructor
  · intro h
    show getTokenLocked cache now b = _
    unfold getTokenLocked
    rw [if_pos ⟨ht, h⟩]
  · intro h
    show (getTokenLocked cache now b).brokerInvoked = true
    unfold getTokenLocked
    rw [if_neg (fun hc => absurd hc.2 (not_lt.mpr h))]
    cases refreshResult now b with
    | none => rfl
    | some pr => rfl

/-- Claim C5, witness: a token expiring at 100 is served at `now = 30`
(70 seconds of margin) and refreshed at `now = 40` (exactly the 60-second
boundary). -/
theorem get_databricks_token_expiry_margin_witness :
    get_databricks_token none ⟨some "tok", 100⟩ 30 .failure =
      ⟨some "tok", ⟨some "tok", 100⟩, false⟩
  ∧ (get_databricks_token none ⟨some "tok", 100⟩ 40 .failure).brokerInvoked = true := by
  constructor
  · exact (get_databricks_token_expiry_margin ⟨some "tok", 100⟩ 30 .failure
      (by decide)).1 (by decide)
  · exact (get_databricks_token_expiry_margin ⟨some "tok", 100⟩ 40 .failure
      (by decide)).2 (by decide)

/-- Claim C7: with no override and no serviceable cache, any failing broker
interaction (raised exception or timeout, non-zero exit, unparseable
output, missing or falsy token) makes the provider return `None`, and the
proxied route maps that to a 500 response whose error type is
"config_error", before any upstream request is built or sent. -/
theorem broker_unavailable_maps_config_error (inb : InboundRequest)
    (cache : TokenCache) (now : Int) (b : BrokerResult) (upstream : UpstreamOutcome)
    (hc : ¬(truthyOpt cache.accessToken = true ∧ now < cache.expiry - 60))
    (hb : refreshResult now b = none) :
    (get_databricks_token none cache now b).token = none
  ∧ chat_completions inb none cache now b upstream =
      ⟨.jsonErr 500 "config_error" configMsg none, none⟩ := by
  have h1 : get_databricks_token none cache now b = ⟨none, cache, true⟩ := by
    show getTokenLocked cache now b = _
    unfold getTokenLocked
    rw [if_neg hc, hb]
  refine ⟨by rw [h1], ?_⟩
  unfold chat_completions
  rw [h1]

/-- Claim C7, witness: an empty cache and a broker subprocess that raises
yield the 500 config_error response. -/
theorem broker_unavailable_maps_config_error_witness :
    (get_databricks_token none ⟨none, 0⟩ 0 .failure).token = none
  ∧ chat_completions ⟨some "Bearer k", none, false⟩ none ⟨none, 0⟩ 0 .failure .timeout =
      ⟨.jsonErr 500 "config_error" configMsg none, none⟩ :=
  broker_unavailable_maps_config_error ⟨some "Bearer k", none, false⟩ ⟨none, 0⟩ 0
    .failure .timeout (by decide) (by decide)

/-- Claim C2, counterexample: an upstream 429 with body
`\x7b"error":"rate limited"\x7d` reaches the caller with status 429 but
wrapped in the error envelope of proxy.py lines 156-158 — message set to
the upstream text, type "databricks_error", code 429 — not as the
unchanged upstream body. -/
theorem upstream_429_body_wrapped :
    chat_completions ⟨some "Bearer k", none, false⟩ (some "DB") ⟨none, 0⟩ 0 .failure
        (.response 429 body429 (some "application/json") []) =
      ⟨.jsonErr 429 "databricks_error" body429 (some 429),
        some (build_outbound ⟨some "Bearer k", none, false⟩ "DB")⟩
  ∧ (chat_completions ⟨some "Bearer k", none, false⟩ (some "DB") ⟨none, 0⟩ 0 .failure
        (.response 429 body429 (some "application/json") [])).response ≠
      .full 429 "application/json" body429 := by decide

/-- Claim C2, amended: every upstream response with a status other than
200 is relayed with that same status code, but its body arrives wrapped in
a JSON error envelope whose message is the upstream body text, whose type
is "databricks_error", and whose code is the upstream status. -/
theorem chat_completions_non200_envelope (inb : InboundRequest) (env : Option String)
    (cache : TokenCache) (now : Int) (b : BrokerResult) (tok : String) (st : Nat)
    (body : String) (ct : Option String) (chunks : List (List Nat))
    (htok : (get_databricks_token env cache now b).token = some tok)
    (hst : st ≠ 200) :
    chat_completions inb env cache now b (.response st body ct chunks) =
      ⟨.jsonErr st "databricks_error" body (some st), some (build_outbound inb tok)⟩ := by
  unfold chat_completions
  rw [htok]
  simp [hst]

/-- Claim C2, witness for the amended theorem at a concrete input. -/
theorem chat_completions_non200_envelope_witness :
    chat_completions ⟨some "Bearer k", none, false⟩ (some "DB") ⟨none, 0⟩ 0 .failure
        (.response 503 "upstream down" none []) =
      ⟨.jsonErr 503 "databricks_error" "upstream down" (some 503),
        some (build_outbound ⟨some "Bearer k", none, false⟩ "DB")⟩ :=
  chat_completions_non200_envelope ⟨some "Bearer k", none, false⟩ (some "DB") ⟨none, 0⟩
    0 .failure "DB" 503 "upstream down" none [] (by decide) (by decide)

/-- Claim C8: for a streaming request answered 200 upstream, the route
streams the relayed chunks under the fixed `text/event-stream` mimetype,
whatever content type the upstream negotiated, and the concatenation of
the relayed chunks equals the concatenation of the received chunks (only
falsy empty chunks are skipped). -/
theorem streaming_relay_preserves_bytes (inb : InboundRequest) (env : Option String)
    (cache : TokenCache) (now : Int) (b : BrokerResult) (tok : String)
    (body : String) (ct : Option String) (chunks : List (List Nat))
    (htok : (get_databricks_token env cache now b).token = some tok)
    (hstream : inb.stream = true) :
    chat_completions inb env cache now b (.response 200 body ct chunks) =
      ⟨.stream "text/event-stream" (relayChunks chunks), some (build_outbound inb tok)⟩
  ∧ (relayChunks chunks).flatten = chunks.flatten := by
  constructor
  · unfold chat_completions
    rw [htok]
    simp [hstream]
  · exact relayChunks_flatten chunks

/-- Claim C8, witness: three upstream chunks, one of them empty, are
relayed with their bytes intact. -/
theorem streaming_relay_preserves_bytes_witness :
    chat_completions ⟨some "Bearer k", none, true⟩ (some "DB") ⟨none, 0⟩ 0 .failure
        (.response 200 "" (some "application/octet-stream") [[104, 105], [], [33]]) =
      ⟨.stream "text/event-stream" (relayChunks [[104, 105], [], [33]]),
        some (build_outbound ⟨some "Bearer k", none, true⟩ "DB")⟩
  ∧ (relayChunks [[104, 105], [], [33]]).flatten =
      ([[104, 105], [], [33]] : List (List Nat)).flatten :=
  streaming_relay_preserves_bytes ⟨some "Bearer k", none, true⟩ (some "DB") ⟨none, 0⟩
    0 .failure "DB" "" (some "application/octet-stream") [[104, 105], [], [33]]
    (by decide) rfl

/-- Claim C10: an inbound request with no `Authorization` header at all is
not rejected — the outbound request is still built and dispatched for
every upstream outcome, with the outbound `x-anthropic-api-key` equal to
the empty string. -/
theorem no_auth_header_still_forwarded (inb : InboundRequest) (env : Option String)
    (cache : TokenCache) (now : Int) (b : BrokerResult) (tok : String)
    (upstream : UpstreamOutcome)
    (hauth : inb.authorization = none)
    (htok : (get_databricks_token env cache now b).token = some tok) :
    (chat_completions inb env cache now b upstream).forwarded =
      some (build_outbound inb tok)
  ∧ (build_outbound inb tok).xAnthropicApiKey = "" := by
  constructor
  · unfold chat_completions
    rw [htok]
    cases upstream with
    | timeout => rfl
    | transportError m => rfl
    | response st body ct chunks =>
      by_cases h : st = 200
      · by_cases hs : inb.stream = true
        · simp [h, hs]
        · simp [h, hs]
      · simp [h]
  · show removeBearerS (inb.authorization.getD "") = ""
    rw [hauth]
    decide

/-- Claim C10, witness at a concrete input with no Authorization header. -/
theorem no_auth_header_still_forwarded_witness :
    (chat_completions ⟨none, none, false⟩ (some "DB") ⟨none, 0⟩ 0 .failure
        (.response 200 "done" none [])).forwarded =
      some (build_outbound ⟨none, none, false⟩ "DB")
  ∧ (build_outbound ⟨none, none, false⟩ "DB").xAnthropicApiKey = "" :=
  no_auth_header_still_forwarded ⟨none, none, false⟩ (some "DB") ⟨none, 0⟩ 0 .failure
    "DB" (.response 200 "done" none []) rfl (by decide)

/-- Claim C4: discovery reuses the well-known port exactly when the probe
answers with status "ok" and the requested workspace: a matching healthy
probe yields `(PROXY_PORT, true)`; a failed probe with a successful test
bind yields `(PROXY_PORT, false)`; against a healthy instance for
workspace `w`, discovery for `w` reuses it while discovery for a different
workspace `w2` reports a port that is not already running. -/
theorem find_proxy_port_spec (w w2 : String) (bindOk : Bool) (osPort : Nat)
    (d : HealthData) (hs : d.status = some "ok") (hw : d.workspace = some w)
    (hne : w2 ≠ w) :
    find_proxy_port w (.ok d) bindOk osPort = (PROXY_PORT, true)
  ∧ find_proxy_port w .failed true osPort = (PROXY_PORT, false)
  ∧ find_proxy_port w (.ok (codingAgentHealthData w)) bindOk osPort = (PROXY_PORT, true)
  ∧ (find_proxy_port w2 (.ok (codingAgentHealthData w)) bindOk osPort).2 = false := by
  refine ⟨?_, rfl, ?_, ?_⟩
  · simp [find_proxy_port, hs, hw]
  · simp [find_proxy_port, codingAgentHealthData]
  · simp [find_proxy_port, codingAgentHealthData, Ne.symm hne]
    cases bindOk <;> simp

/-- Claim C4, witness at two concrete workspace identities. -/
theorem find_proxy_port_spec_witness :
    find_proxy_port "https://w1" (.ok ⟨some "ok", some "https://w1"⟩) true 50000 =
      (PROXY_PORT, true)
  ∧ find_proxy_port "https://w1" .failed true 50000 = (PROXY_PORT, false)
  ∧ find_proxy_port "https://w1" (.ok (codingAgentHealthData "https://w1")) true 50000 =
      (PROXY_PORT, true)
  ∧ (find_proxy_port "https://w2" (.ok (codingAgentHealthData "https://w1")) true
      50000).2 = false :=
  find_proxy_port_spec "https://w1" "https://w2" true 50000
    ⟨some "ok", some "https://w1"⟩ rfl rfl (by decide)

end DatabricksClaude
